import Mathlib

/-!
Verification of `kerastuner/applications/hyperception/hyperception.py`.

The module builds a hyper-tunable Xception-style classification model.
We embed the Python module shallowly: dictionaries become association
lists with first-match lookup (later `dict.update` entries are prepended,
so lookup order matches Python's override semantics), hyperparameter
values become the inductive `HValue`, raised exceptions become
`Except PyErr`, and the assembled Keras layer graph becomes a list of
`LayerNode`s recording each framework call and its arguments in order.
-/

/-- Values stored in a hyperparameter dictionary: Python ints, floats
(represented exactly as rationals, since the module never computes with
them), strings, booleans and integer tuples. -/
inductive HValue where
  | natV (n : Nat)
  | numV (q : ℚ)
  | strV (s : String)
  | boolV (b : Bool)
  | tupV (t : List Nat)
deriving DecidableEq, Repr

/-- A Python dictionary of hyperparameters, as an association list.
`dict.update` semantics are modelled by prepending the updating entries,
so that lookup finds them first. -/
def HParams : Type := List (String × HValue)

/-- Dictionary lookup: first binding of the key wins. -/
def hpLookup : List (String × HValue) → String → Option HValue
  | [], _ => none
  | (k, v) :: rest, key => if k = key then some v else hpLookup rest key

/-- Python exceptions that the module can produce: `KeyError` from a
missing dictionary key, `TypeError` from using a non-integer where the
code iterates or doubles, and `ValueError` raised explicitly with a
message template and the offending value (the source passes the value as
a second argument to `ValueError`, so the error carries it verbatim). -/
inductive PyErr where
  | keyError (key : String)
  | typeError (key : String)
  | valueError (template : String) (offending : HValue)
deriving DecidableEq, Repr

/-- `hp[key]`: dictionary subscript, raising `KeyError` when absent. -/
def getItem (hp : List (String × HValue)) (key : String) : Except PyErr HValue :=
  match hpLookup hp key with
  | some v => Except.ok v
  | none => Except.error (PyErr.keyError key)

/-- `hp[key]` at a position where the code needs a Python int (a `range`
bound or a filter count that is doubled): raises `KeyError` when absent
and `TypeError` when the value is not an integer. -/
def getNat (hp : List (String × HValue)) (key : String) : Except PyErr Nat :=
  match hpLookup hp key with
  | some (HValue.natV n) => Except.ok n
  | some _ => Except.error (PyErr.typeError key)
  | none => Except.error (PyErr.keyError key)

/-- Modelled from the spec: `default_hparams` lives in
`kerastuner/applications/hyperception/hparams.py`, which is not part of
the sources; the spec says it returns a shape/class-count-appropriate
mapping supplying every key consumed downstream (kernel_size,
initial_strides, activation, optimizer, conv2d_num_filters,
sep_num_filters, num_residual_blocks, dense_merge_type, num_dense_layers,
dropout_rate, dense_use_bn, learning_rate, momentum,
learning_rate_decay). Concrete values are representative. -/
def default_hparams (input_shape : List Nat) (num_classes : Nat) :
    List (String × HValue) :=
  [("kernel_size", HValue.tupV [3, 3]),
   ("initial_strides", HValue.tupV [2, 2]),
   ("activation", HValue.strV "relu"),
   ("optimizer", HValue.strV "adam"),
   ("conv2d_num_filters", HValue.natV 32),
   ("sep_num_filters", HValue.natV 64),
   ("num_residual_blocks", HValue.natV 4),
   ("dense_merge_type", HValue.strV "avg"),
   ("num_dense_layers", HValue.natV 1),
   ("dropout_rate", HValue.numV (1 / 5)),
   ("dense_use_bn", HValue.boolV true),
   ("learning_rate", HValue.numV (1 / 1000)),
   ("momentum", HValue.numV (9 / 10)),
   ("learning_rate_decay", HValue.numV (1 / 100))]

/-- Modelled from the spec: `default_fixed_hparams` (same missing module)
returns a mapping with a single concrete value per key. -/
def default_fixed_hparams (input_shape : List Nat) (num_classes : Nat) :
    List (String × HValue) :=
  [("kernel_size", HValue.tupV [3, 3]),
   ("initial_strides", HValue.tupV [2, 2]),
   ("activation", HValue.strV "relu"),
   ("optimizer", HValue.strV "adam"),
   ("conv2d_num_filters", HValue.natV 32),
   ("sep_num_filters", HValue.natV 64),
   ("num_residual_blocks", HValue.natV 3),
   ("dense_merge_type", HValue.strV "avg"),
   ("num_dense_layers", HValue.natV 1),
   ("dropout_rate", HValue.numV (3 / 10)),
   ("dense_use_bn", HValue.boolV true),
   ("learning_rate", HValue.numV (1 / 1000)),
   ("momentum", HValue.numV (9 / 10)),
   ("learning_rate_decay", HValue.numV (1 / 100))]

/-- Lines 61-64 of the source: `hp = \x7b\x7d; hp.update(default_hparams(
input_shape, num_classes)); if hparams: hp.update(hparams)`.  With the
prepend representation the caller overrides come first, so they win on
lookup; the emptiness test mirrors `if hparams:`. -/
def resolvedHp (input_shape : List Nat) (num_classes : Nat)
    (hparams : List (String × HValue)) : List (String × HValue) :=
  if hparams.isEmpty then default_hparams input_shape num_classes
  else hparams ++ default_hparams input_shape num_classes

/-- One node of the assembled Keras graph: each constructor records one
framework or helper-block call made by `_hyperception`, with the
arguments the source passes (the helper blocks `conv`, `residual`,
`dense` live in the external `blocks` module and are opaque here). -/
inductive LayerNode where
  | conv (filters kernelSize activation strides : HValue)
  | residual (filters : Nat) (activation : HValue) (maxPooling : Bool)
  | flatten
  | globalAvgPool
  | globalMaxPool
  | denseBlock (units : Nat) (activation batchnorm dropoutRate : HValue)
  | denseLayer (units : Nat) (activation : String)
deriving DecidableEq, Repr

/-- The parameter block of `_hyperception` (lines 66-91 of the source):
every hyperparameter is read from the resolved dictionary before any
layer is built, in source order. -/
structure ResolvedParams where
  kernel_size : HValue
  initial_strides : HValue
  activation : HValue
  optimizer : HValue
  conv2d_num_filters : HValue
  sep_num_filters : Nat
  num_residual_blocks : Nat
  dense_merge_type : HValue
  num_dense_layers : Nat
  dropout_rate : HValue
  dense_use_bn : HValue
deriving DecidableEq, Repr

/-- The sequence of dictionary reads at the top of `_hyperception`,
in the order the source performs them. -/
def resolveParams (hp : List (String × HValue)) : Except PyErr ResolvedParams := do
  let kernel_size ← getItem hp "kernel_size"
  let initial_strides ← getItem hp "initial_strides"
  let activation ← getItem hp "activation"
  let optimizer ← getItem hp "optimizer"
  let conv2d_num_filters ← getItem hp "conv2d_num_filters"
  let sep_num_filters ← getNat hp "sep_num_filters"
  let num_residual_blocks ← getNat hp "num_residual_blocks"
  let dense_merge_type ← getItem hp "dense_merge_type"
  let num_dense_layers ← getNat hp "num_dense_layers"
  let dropout_rate ← getItem hp "dropout_rate"
  let dense_use_bn ← getItem hp "dense_use_bn"
  pure { kernel_size, initial_strides, activation, optimizer,
         conv2d_num_filters, sep_num_filters, num_residual_blocks,
         dense_merge_type, num_dense_layers, dropout_rate, dense_use_bn }

/-- Lines 112-117 of the source: `if dense_merge_type == 'flatten':
Flatten() elif dense_merge_type == "avg": GlobalAveragePooling2D() else:
GlobalMaxPooling2D()`. -/
def mergeLayerOf (dense_merge_type : HValue) : LayerNode :=
  if dense_merge_type = HValue.strV "flatten" then LayerNode.flatten
  else if dense_merge_type = HValue.strV "avg" then LayerNode.globalAvgPool
  else LayerNode.globalMaxPool

/-- The Keras model: the input node shape and the chain of layer calls
applied to it, in application order. -/
structure KModel where
  inputShape : List Nat
  graph : List LayerNode
deriving DecidableEq, Repr

/-- Lines 94-123 of the source, the `### Model ###` block: input, initial
conv, `num_residual_blocks` non-downsampling residual blocks at
`sep_num_filters` filters, one downsampling residual block at doubled
filters (`dims *= 2`), the merge/reduction layer, `num_dense_layers`
dense blocks, and the final softmax `Dense(num_classes)`. -/
def assemble (input_shape : List Nat) (num_classes : Nat)
    (p : ResolvedParams) : KModel :=
  { inputShape := input_shape
    graph :=
      LayerNode.conv p.conv2d_num_filters p.kernel_size p.activation p.initial_strides ::
        (List.replicate p.num_residual_blocks
            (LayerNode.residual p.sep_num_filters p.activation false) ++
          (LayerNode.residual (p.sep_num_filters * 2) p.activation true ::
            mergeLayerOf p.dense_merge_type ::
              (List.replicate p.num_dense_layers
                  (LayerNode.denseBlock num_classes p.activation p.dense_use_bn
                    p.dropout_rate) ++
                [LayerNode.denseLayer num_classes "softmax"]))) }

/-- One of the three Keras optimizers the module can construct, carrying
exactly the constructor arguments the source passes. -/
inductive Optimizer where
  | adam (lr : HValue)
  | sgd (lr momentum decay : HValue)
  | rmsprop (lr decay : HValue)
deriving DecidableEq, Repr

/-- Lines 126-139 of the source: branch on the `optimizer` string,
construct `Adam(lr)`, `SGD(lr, momentum, decay)` or
`RMSprop(lr, decay)` reading the remaining keys inside each branch, and
otherwise `raise ValueError("Optimizer \x27%s\x27 not supported",
optimizer)` with the offending value as the second exception argument. -/
def optimizerOf (hp : List (String × HValue)) (optimizer : HValue) :
    Except PyErr Optimizer :=
  if optimizer = HValue.strV "adam" then do
    let lr ← getItem hp "learning_rate"
    pure (Optimizer.adam lr)
  else if optimizer = HValue.strV "sgd" then do
    let lr ← getItem hp "learning_rate"
    let momentum ← getItem hp "momentum"
    let decay ← getItem hp "learning_rate_decay"
    pure (Optimizer.sgd lr momentum decay)
  else if optimizer = HValue.strV "rmsprop" then do
    let lr ← getItem hp "learning_rate"
    let decay ← getItem hp "learning_rate_decay"
    pure (Optimizer.rmsprop lr decay)
  else Except.error (PyErr.valueError "Optimizer \x27%s\x27 not supported" optimizer)

/-- The compiled model returned by `_hyperception`: the graph, the chosen
optimizer, and the fixed loss and metric bound by `model.compile`. -/
structure CompiledModel where
  net : KModel
  optimizer : Optimizer
  loss : String
  metrics : List String
deriving DecidableEq, Repr

/-- Lines 57-146 of the source, `_hyperception`: resolve hyperparameters,
read them all, assemble the graph, construct the optimizer (the only
explicit `raise` sits in its fallback branch) and compile with
categorical cross-entropy loss and an accuracy metric. -/
def _hyperception (input_shape : List Nat) (num_classes : Nat)
    (hparams : List (String × HValue)) : Except PyErr CompiledModel := do
  let hp := resolvedHp input_shape num_classes hparams
  let p ← resolveParams hp
  let net := assemble input_shape num_classes p
  let opt ← optimizerOf hp p.optimizer
  pure { net := net, optimizer := opt,
         loss := "categorical_crossentropy", metrics := ["accuracy"] }

/-- Lines 17-30 of the source, `hyperception`: returns
`functools.partial(_hyperception, input_shape, num_classes, **hparams)`,
a zero-argument closure over the given arguments. -/
def hyperception (input_shape : List Nat) (num_classes : Nat)
    (hparams : List (String × HValue)) : Unit → Except PyErr CompiledModel :=
  fun _ => _hyperception input_shape num_classes hparams

/-- Lines 149-157 of the source, `_hyperception_single`: takes an extra
`mode="full"` parameter that the body never mentions, merges the fixed
defaults with the caller overrides (`hp.update(hparams)`, overrides win)
and forwards the merged mapping to `_hyperception` as its overrides. -/
def _hyperception_single (input_shape : List Nat) (num_classes : Nat)
    (mode : String) (hparams : List (String × HValue)) :
    Except PyErr CompiledModel :=
  _hyperception input_shape num_classes
    (hparams ++ default_fixed_hparams input_shape num_classes)

/-- Lines 33-46 of the source, `hyperception_single_fn`: returns
`functools.partial(_hyperception_single, input_shape, num_classes,
**hparams)`; when the closure is invoked with no arguments `mode` takes
its default value `"full"`. -/
def hyperception_single_fn (input_shape : List Nat) (num_classes : Nat)
    (hparams : List (String × HValue)) : Unit → Except PyErr CompiledModel :=
  fun _ => _hyperception_single input_shape num_classes "full" hparams

/-- Lines 49-54 of the source, `hyperception_single_model`: builds the
closure and immediately invokes it (the `print` calls have no effect on
the returned value). -/
def hyperception_single_model (input_shape : List Nat) (num_classes : Nat)
    (hparams : List (String × HValue)) : Except PyErr CompiledModel :=
  hyperception_single_fn input_shape num_classes hparams ()

/-- A top-level statement of the Python module, as executed at load
time: an import, a function definition, or a module-level invocation. -/
inductive TopLevelStmt where
  | importStmt (moduleName : String)
  | defStmt (functionName : String)
  | invocationStmt (callee : String)
deriving DecidableEq, Repr

/-- Whether a top-level statement is an import. -/
def TopLevelStmt.isImport : TopLevelStmt → Bool
  | TopLevelStmt.importStmt _ => true
  | _ => false

/-- Whether a top-level statement is a function definition. -/
def TopLevelStmt.isDef : TopLevelStmt → Bool
  | TopLevelStmt.defStmt _ => true
  | _ => false

/-- Whether a top-level statement is a module-level invocation. -/
def TopLevelStmt.isInvocation : TopLevelStmt → Bool
  | TopLevelStmt.invocationStmt _ => true
  | _ => false

/-- The top-level statements of `hyperception.py` in source order (lines
1-157): twelve imports and five function definitions.  The file contains
no module-level invocation. -/
def moduleTopLevel : List TopLevelStmt :=
  [TopLevelStmt.importStmt "copy",
   TopLevelStmt.importStmt "functools",
   TopLevelStmt.importStmt "tensorflow",
   TopLevelStmt.importStmt "tensorflow.keras",
   TopLevelStmt.importStmt "tensorflow.keras.layers",
   TopLevelStmt.importStmt "tensorflow.keras.callbacks",
   TopLevelStmt.importStmt "tensorflow.keras.layers.*",
   TopLevelStmt.importStmt "tensorflow.keras.models",
   TopLevelStmt.importStmt "tensorflow.keras.optimizers",
   TopLevelStmt.importStmt "tensorflow.keras.utils",
   TopLevelStmt.importStmt "kerastuner.applications.hyperception.blocks",
   TopLevelStmt.importStmt "kerastuner.applications.hyperception.hparams",
   TopLevelStmt.defStmt "hyperception",
   TopLevelStmt.defStmt "hyperception_single_fn",
   TopLevelStmt.defStmt "hyperception_single_model",
   TopLevelStmt.defStmt "_hyperception",
   TopLevelStmt.defStmt "_hyperception_single"]

/-- Whether a graph node is one of the three spatial-reduction layers. -/
def isReduction : LayerNode → Bool
  | LayerNode.flatten => true
  | LayerNode.globalAvgPool => true
  | LayerNode.globalMaxPool => true
  | _ => false

/-- Whether a graph node is a non-downsampling residual block. -/
def isMidResidual : LayerNode → Bool
  | LayerNode.residual _ _ false => true
  | _ => false

/-- Whether a graph node is a downsampling residual block. -/
def isDownResidual : LayerNode → Bool
  | LayerNode.residual _ _ true => true
  | _ => false

/-- Whether a graph node is a dense helper block. -/
def isDenseBlock : LayerNode → Bool
  | LayerNode.denseBlock _ _ _ _ => true
  | _ => false

/-- The compiled model produced from the default hyperparameters with no
overrides, for a given shape and class count. -/
def exampleDefaultModel (input_shape : List Nat) (num_classes : Nat) :
    CompiledModel :=
  { net := { inputShape := input_shape
             graph := [LayerNode.conv (HValue.natV 32) (HValue.tupV [3, 3])
                         (HValue.strV "relu") (HValue.tupV [2, 2]),
                       LayerNode.residual 64 (HValue.strV "relu") false,
                       LayerNode.residual 64 (HValue.strV "relu") false,
                       LayerNode.residual 64 (HValue.strV "relu") false,
                       LayerNode.residual 64 (HValue.strV "relu") false,
                       LayerNode.residual 128 (HValue.strV "relu") true,
                       LayerNode.globalAvgPool,
                       LayerNode.denseBlock num_classes (HValue.strV "relu")
                         (HValue.boolV true) (HValue.numV (1 / 5)),
                       LayerNode.denseLayer num_classes "softmax"] }
    optimizer := Optimizer.adam (HValue.numV (1 / 1000))
    loss := "categorical_crossentropy"
    metrics := ["accuracy"] }

/-- The compiled model for shape `[8, 8, 3]`, two classes and the single
override `num_residual_blocks = 0`. -/
def exampleNoResModel : CompiledModel :=
  { net := { inputShape := [8, 8, 3]
             graph := [LayerNode.conv (HValue.natV 32) (HValue.tupV [3, 3])
                         (HValue.strV "relu") (HValue.tupV [2, 2]),
                       LayerNode.residual 128 (HValue.strV "relu") true,
                       LayerNode.globalAvgPool,
                       LayerNode.denseBlock 2 (HValue.strV "relu")
                         (HValue.boolV true) (HValue.numV (1 / 5)),
                       LayerNode.denseLayer 2 "softmax"] }
    optimizer := Optimizer.adam (HValue.numV (1 / 1000))
    loss := "categorical_crossentropy"
    metrics := ["accuracy"] }

/-- The compiled model for shape `[8, 8, 3]`, two classes and the single
override `dense_merge_type = "flatten"`. -/
def exampleFlattenModel : CompiledModel :=
  { net := { inputShape := [8, 8, 3]
             graph := [LayerNode.conv (HValue.natV 32) (HValue.tupV [3, 3])
                         (HValue.strV "relu") (HValue.tupV [2, 2]),
                       LayerNode.residual 64 (HValue.strV "relu") false,
                       LayerNode.residual 64 (HValue.strV "relu") false,
                       LayerNode.residual 64 (HValue.strV "relu") false,
                       LayerNode.residual 64 (HValue.strV "relu") false,
                       LayerNode.residual 128 (HValue.strV "relu") true,
                       LayerNode.flatten,
                       LayerNode.denseBlock 2 (HValue.strV "relu")
                         (HValue.boolV true) (HValue.numV (1 / 5)),
                       LayerNode.denseLayer 2 "softmax"] }
    optimizer := Optimizer.adam (HValue.numV (1 / 1000))
    loss := "categorical_crossentropy"
    metrics := ["accuracy"] }

/-- The compiled model for shape `[8, 8, 3]`, two classes and the single
override `num_dense_layers = 0`. -/
def exampleNoDenseModel : CompiledModel :=
  { net := { inputShape := [8, 8, 3]
             graph := [LayerNode.conv (HValue.natV 32) (HValue.tupV [3, 3])
                         (HValue.strV "relu") (HValue.tupV [2, 2]),
                       LayerNode.residual 64 (HValue.strV "relu") false,
                       LayerNode.residual 64 (HValue.strV "relu") false,
                       LayerNode.residual 64 (HValue.strV "relu") false,
                       LayerNode.residual 64 (HValue.strV "relu") false,
                       LayerNode.residual 128 (HValue.strV "relu") true,
                       LayerNode.globalAvgPool,
                       LayerNode.denseLayer 2 "softmax"] }
    optimizer := Optimizer.adam (HValue.numV (1 / 1000))
    loss := "categorical_crossentropy"
    metrics := ["accuracy"] }

/-- The parameter record resolved from the defaults with the single
override `optimizer = "xyz"`. -/
def exampleBadOptParams : ResolvedParams :=
  { kernel_size := HValue.tupV [3, 3]
    initial_strides := HValue.tupV [2, 2]
    activation := HValue.strV "relu"
    optimizer := HValue.strV "xyz"
    conv2d_num_filters := HValue.natV 32
    sep_num_filters := 64
    num_residual_blocks := 4
    dense_merge_type := HValue.strV "avg"
    num_dense_layers := 1
    dropout_rate := HValue.numV (1 / 5)
    dense_use_bn := HValue.boolV true }

/-- Bind on `Except` succeeds exactly when both stages succeed. -/
theorem except_bind_ok {α β : Type} (x : Except PyErr α) (f : α → Except PyErr β) (b : β) :
    (x >>= f) = Except.ok b ↔ ∃ a, x = Except.ok a ∧ f a = Except.ok b := by
  cases x <;> simp [Bind.bind, Except.bind]

/-- Bind on `Except` fails exactly when a stage fails. -/
theorem except_bind_err {α β : Type} (x : Except PyErr α) (f : α → Except PyErr β) (e : PyErr) :
    (x >>= f) = Except.error e ↔
      x = Except.error e ∨ ∃ a, x = Except.ok a ∧ f a = Except.error e := by
  cases x <;> simp [Bind.bind, Except.bind]

/-- Pure on `Except` is `ok`. -/
theorem except_pure_ok {β : Type} (b b' : β) :
    (pure b : Except PyErr β) = Except.ok b' ↔ b = b' := by
  simp [pure, Except.pure]

/-- Pure on `Except` is never an error. -/
theorem except_pure_err {β : Type} (b : β) (e : PyErr) :
    (pure b : Except PyErr β) = Except.error e ↔ False := by
  simp [pure, Except.pure]

/-- Bind after a known `ok` reduces. -/
theorem except_ok_bind {α β : Type} (a : α) (f : α → Except PyErr β) :
    (Except.ok a >>= f) = f a := rfl

/-- Bind after a known error propagates the error. -/
theorem except_error_bind {α β : Type} (e : PyErr) (f : α → Except PyErr β) :
    ((Except.error e : Except PyErr α) >>= f) = Except.error e := rfl

/-- Dictionary subscript only ever raises `KeyError`. -/
theorem getItem_err (hp : List (String × HValue)) (key : String) (e : PyErr)
    (h : getItem hp key = Except.error e) : e = PyErr.keyError key := by
  unfold getItem at h
  cases hl : hpLookup hp key <;> rw [hl] at h <;> simp_all

/-- Integer-expecting subscript only raises `KeyError` or `TypeError`. -/
theorem getNat_err (hp : List (String × HValue)) (key : String) (e : PyErr)
    (h : getNat hp key = Except.error e) :
    e = PyErr.keyError key ∨ e = PyErr.typeError key := by
  unfold getNat at h
  cases hl : hpLookup hp key with
  | none => rw [hl] at h; simp_all
  | some v => cases v <;> rw [hl] at h <;> simp_all

/-- Dictionary lookup over concatenation: the left dictionary wins. -/
theorem hpLookup_append (l1 l2 : List (String × HValue)) (key : String) :
    hpLookup (l1 ++ l2) key =
      match hpLookup l1 key with
      | some v => some v
      | none => hpLookup l2 key := by
  induction l1 with
  | nil => simp [hpLookup]
  | cons kv rest ih =>
    obtain ⟨k, v⟩ := kv
    by_cases hk : k = key
    · simp [hpLookup, hk]
    · simp [hpLookup, hk, ih]

/-- A successful parameter resolution reads each hyperparameter from the
dictionary, field by field. -/
theorem resolveParams_fields (hp : List (String × HValue)) (p : ResolvedParams)
    (h : resolveParams hp = Except.ok p) :
    getItem hp "kernel_size" = Except.ok p.kernel_size ∧
    getItem hp "initial_strides" = Except.ok p.initial_strides ∧
    getItem hp "activation" = Except.ok p.activation ∧
    getItem hp "optimizer" = Except.ok p.optimizer ∧
    getItem hp "conv2d_num_filters" = Except.ok p.conv2d_num_filters ∧
    getNat hp "sep_num_filters" = Except.ok p.sep_num_filters ∧
    getNat hp "num_residual_blocks" = Except.ok p.num_residual_blocks ∧
    getItem hp "dense_merge_type" = Except.ok p.dense_merge_type ∧
    getNat hp "num_dense_layers" = Except.ok p.num_dense_layers ∧
    getItem hp "dropout_rate" = Except.ok p.dropout_rate ∧
    getItem hp "dense_use_bn" = Except.ok p.dense_use_bn := by
  simp only [resolveParams, except_bind_ok, except_pure_ok] at h
  obtain ⟨a1, h1, a2, h2, a3, h3, a4, h4, a5, h5, a6, h6, a7, h7, a8, h8,
    a9, h9, a10, h10, a11, h11, hmk⟩ := h
  subst hmk
  exact ⟨h1, h2, h3, h4, h5, h6, h7, h8, h9, h10, h11⟩

/-- Parameter resolution never raises a `ValueError`: its only failures
are missing keys or ill-typed values. -/
theorem resolveParams_err (hp : List (String × HValue)) (e : PyErr)
    (h : resolveParams hp = Except.error e) :
    ∃ k, e = PyErr.keyError k ∨ e = PyErr.typeError k := by
  simp only [resolveParams, except_bind_err, except_pure_err, and_false,
    exists_false, or_false] at h
  rcases h with h | ⟨_, _, h | ⟨_, _, h | ⟨_, _, h | ⟨_, _, h | ⟨_, _, h | ⟨_, _,
    h | ⟨_, _, h | ⟨_, _, h | ⟨_, _, h | ⟨_, _, h⟩⟩⟩⟩⟩⟩⟩⟩⟩⟩
  · exact ⟨_, Or.inl (getItem_err _ _ _ h)⟩
  · exact ⟨_, Or.inl (getItem_err _ _ _ h)⟩
  · exact ⟨_, Or.inl (getItem_err _ _ _ h)⟩
  · exact ⟨_, Or.inl (getItem_err _ _ _ h)⟩
  · exact ⟨_, Or.inl (getItem_err _ _ _ h)⟩
  · exact ⟨_, getNat_err _ _ _ h⟩
  · exact ⟨_, getNat_err _ _ _ h⟩
  · exact ⟨_, Or.inl (getItem_err _ _ _ h)⟩
  · exact ⟨_, getNat_err _ _ _ h⟩
  · exact ⟨_, Or.inl (getItem_err _ _ _ h)⟩
  · exact ⟨_, Or.inl (getItem_err _ _ _ h)⟩

/-- When the optimizer string is none of the three supported ones, the
selector raises the unsupported-optimizer `ValueError` carrying the
offending value. -/
theorem optimizerOf_unsupported (hp : List (String × HValue)) (v : HValue)
    (h1 : v ≠ HValue.strV "adam") (h2 : v ≠ HValue.strV "sgd")
    (h3 : v ≠ HValue.strV "rmsprop") :
    optimizerOf hp v =
      Except.error (PyErr.valueError "Optimizer \x27%s\x27 not supported" v) := by
  unfold optimizerOf
  rw [if_neg h1, if_neg h2, if_neg h3]

/-- Every `ValueError` the optimizer selector can produce is the
unsupported-optimizer one, carrying the branch value verbatim. -/
theorem optimizerOf_valueError (hp : List (String × HValue)) (v : HValue)
    (m : String) (a : HValue)
    (h : optimizerOf hp v = Except.error (PyErr.valueError m a)) :
    m = "Optimizer \x27%s\x27 not supported" ∧ a = v ∧
    v ≠ HValue.strV "adam" ∧ v ≠ HValue.strV "sgd" ∧ v ≠ HValue.strV "rmsprop" := by
  unfold optimizerOf at h
  split_ifs at h with h1 h2 h3
  · rcases (except_bind_err _ _ _).mp h with herr | ⟨lr, _, hpe⟩
    · have := getItem_err _ _ _ herr; simp at this
    · rw [except_pure_err] at hpe; exact hpe.elim
  · rcases (except_bind_err _ _ _).mp h with herr | ⟨lr, _, h⟩
    · have := getItem_err _ _ _ herr; simp at this
    rcases (except_bind_err _ _ _).mp h with herr | ⟨mom, _, h⟩
    · have := getItem_err _ _ _ herr; simp at this
    rcases (except_bind_err _ _ _).mp h with herr | ⟨dec, _, hpe⟩
    · have := getItem_err _ _ _ herr; simp at this
    · rw [except_pure_err] at hpe; exact hpe.elim
  · rcases (except_bind_err _ _ _).mp h with herr | ⟨lr, _, h⟩
    · have := getItem_err _ _ _ herr; simp at this
    rcases (except_bind_err _ _ _).mp h with herr | ⟨dec, _, hpe⟩
    · have := getItem_err _ _ _ herr; simp at this
    · rw [except_pure_err] at hpe; exact hpe.elim
  · rw [Except.error.injEq, PyErr.valueError.injEq] at h
    exact ⟨h.1.symm, h.2.symm, h1, h2, h3⟩

/-- A successful build decomposes into a successful parameter
resolution, the assembled graph, a successful optimizer construction and
the fixed compile arguments. -/
theorem build_ok_elim (s : List Nat) (c : Nat) (h : List (String × HValue))
    (cm : CompiledModel) (hb : _hyperception s c h = Except.ok cm) :
    ∃ p opt, resolveParams (resolvedHp s c h) = Except.ok p ∧
      optimizerOf (resolvedHp s c h) p.optimizer = Except.ok opt ∧
      cm = { net := assemble s c p, optimizer := opt,
             loss := "categorical_crossentropy", metrics := ["accuracy"] } := by
  simp only [_hyperception, except_bind_ok, except_pure_ok] at hb
  obtain ⟨p, hp, opt, hopt, hcm⟩ := hb
  exact ⟨p, opt, hp, hopt, hcm.symm⟩

/-- Every `ValueError` escaping `_hyperception` comes from the optimizer
selector, after a successful parameter resolution. -/
theorem build_err_elim (s : List Nat) (c : Nat) (h : List (String × HValue))
    (m : String) (a : HValue)
    (hb : _hyperception s c h = Except.error (PyErr.valueError m a)) :
    ∃ p, resolveParams (resolvedHp s c h) = Except.ok p ∧
      optimizerOf (resolvedHp s c h) p.optimizer =
        Except.error (PyErr.valueError m a) := by
  simp only [_hyperception, except_bind_err, except_pure_err, and_false,
    exists_false, or_false] at hb
  rcases hb with hb | ⟨p, hp, hb⟩
  · obtain ⟨k, hk | hk⟩ := resolveParams_err _ _ hb <;> simp at hk
  · exact ⟨p, hp, hb⟩

/-- Count of occurrences of a predicate in a replicated list. -/
theorem countP_replicate {α : Type} (q : α → Bool) (n : Nat) (a : α) :
    (List.replicate n a).countP q = if q a then n else 0 := by
  induction n with
  | zero => simp
  | succ n ih =>
    rw [List.replicate_succ, List.countP_cons, ih]
    cases hq : q a <;> simp [hq]

/-- The merge layer is always one of the three reduction layers. -/
theorem isReduction_mergeLayerOf (v : HValue) :
    isReduction (mergeLayerOf v) = true := by
  unfold mergeLayerOf
  split_ifs <;> rfl

/-- The merge layer is never a residual block. -/
theorem isMidResidual_mergeLayerOf (v : HValue) :
    isMidResidual (mergeLayerOf v) = false := by
  unfold mergeLayerOf
  split_ifs <;> rfl

/-- The merge layer is never a downsampling residual block. -/
theorem isDownResidual_mergeLayerOf (v : HValue) :
    isDownResidual (mergeLayerOf v) = false := by
  unfold mergeLayerOf
  split_ifs <;> rfl

/-- The merge layer is never a dense block. -/
theorem isDenseBlock_mergeLayerOf (v : HValue) :
    isDenseBlock (mergeLayerOf v) = false := by
  unfold mergeLayerOf
  split_ifs <;> rfl

/-- The merge layer takes one of exactly three forms. -/
theorem mergeLayerOf_cases (v : HValue) :
    mergeLayerOf v = LayerNode.flatten ∨
    mergeLayerOf v = LayerNode.globalAvgPool ∨
    mergeLayerOf v = LayerNode.globalMaxPool := by
  unfold mergeLayerOf
  split_ifs <;> simp

/-- The assembled graph contains exactly one reduction layer. -/
theorem assemble_countP_reduction (s : List Nat) (c : Nat) (p : ResolvedParams) :
    (assemble s c p).graph.countP isReduction = 1 := by
  rcases mergeLayerOf_cases p.dense_merge_type with hm | hm | hm <;>
    simp [assemble, hm, List.countP_cons, List.countP_append, countP_replicate,
      isReduction]

/-- The assembled graph contains exactly `num_residual_blocks`
non-downsampling residual blocks. -/
theorem assemble_countP_midres (s : List Nat) (c : Nat) (p : ResolvedParams) :
    (assemble s c p).graph.countP isMidResidual = p.num_residual_blocks := by
  rcases mergeLayerOf_cases p.dense_merge_type with hm | hm | hm <;>
    simp [assemble, hm, List.countP_cons, List.countP_append, countP_replicate,
      isMidResidual]

/-- The assembled graph contains exactly one downsampling residual
block. -/
theorem assemble_countP_downres (s : List Nat) (c : Nat) (p : ResolvedParams) :
    (assemble s c p).graph.countP isDownResidual = 1 := by
  rcases mergeLayerOf_cases p.dense_merge_type with hm | hm | hm <;>
    simp [assemble, hm, List.countP_cons, List.countP_append, countP_replicate,
      isDownResidual]

/-- The assembled graph contains exactly `num_dense_layers` dense
blocks. -/
theorem assemble_countP_denseBlock (s : List Nat) (c : Nat) (p : ResolvedParams) :
    (assemble s c p).graph.countP isDenseBlock = p.num_dense_layers := by
  rcases mergeLayerOf_cases p.dense_merge_type with hm | hm | hm <;>
    simp [assemble, hm, List.countP_cons, List.countP_append, countP_replicate,
      isDenseBlock]

/-- Claim C2: for every input shape, class count and caller-supplied
override mapping, the resolved hyperparameter mapping equals the default
mapping for that shape and class count updated by the overrides: the
override value wins on every key present in both, keys not overridden
keep their default value, and unknown override keys are accepted
verbatim with no validation or type coercion. -/
theorem hparams_resolution_merge (input_shape : List Nat) (num_classes : Nat)
    (hparams : List (String × HValue)) (key : String) :
    hpLookup (resolvedHp input_shape num_classes hparams) key =
      match hpLookup hparams key with
      | some v => some v
      | none => hpLookup (default_hparams input_shape num_classes) key := by
  unfold resolvedHp
  rcases hparams with _ | ⟨kv, rest⟩
  · simp [hpLookup]
  · rw [if_neg (by simp)]
    exact hpLookup_append _ _ _

/-- Claim C8: invoking the zero-argument closure returned by the public
wrapper `hyperception` with no arguments produces the same compiled
model as invoking the underlying builder `_hyperception` directly with
the same shape, class count and hyperparameters. -/
theorem wrapper_defers_construction (input_shape : List Nat) (num_classes : Nat)
    (hparams : List (String × HValue)) :
    hyperception input_shape num_classes hparams () =
      _hyperception input_shape num_classes hparams := rfl

/-- Claim C10: the `mode` parameter of `_hyperception_single` is dead:
for every shape, class count and override mapping, any two mode values
produce the same compiled model. -/
theorem mode_parameter_ignored (input_shape : List Nat) (num_classes : Nat)
    (mode1 mode2 : String) (hparams : List (String × HValue)) :
    _hyperception_single input_shape num_classes mode1 hparams =
      _hyperception_single input_shape num_classes mode2 hparams := rfl

/-- Claim C9 is false of the source: the module's top level consists
only of imports and function definitions, so no module-level invocation
constructs an example model at import time. -/
theorem no_module_level_invocation_cex :
    ¬ ∃ st ∈ moduleTopLevel, TopLevelStmt.isInvocation st = true := by decide

/-- Claim C9 (amended): loading the module executes only imports and the
five builder-function definitions; it contains no module-level
invocation, so no example model is constructed at import time. -/
theorem module_toplevel_defs_only :
    moduleTopLevel.all (fun st => st.isImport || st.isDef) = true ∧
    moduleTopLevel.countP TopLevelStmt.isInvocation = 0 ∧
    moduleTopLevel.countP TopLevelStmt.isDef = 5 := by decide

/-- Claim C1: whenever the resolved mapping's optimizer value is none of
the strings "adam", "sgd" and "rmsprop", the builder fails with the
unsupported-optimizer `ValueError` whose payload reports the offending
value, and this is the module's only explicit error path: every
`ValueError` the builder can produce is this one, naming the
unsupported optimizer value. -/
theorem optimizer_unsupported_error (input_shape : List Nat) (num_classes : Nat)
    (hparams : List (String × HValue)) (p : ResolvedParams)
    (hres : resolveParams (resolvedHp input_shape num_classes hparams) = Except.ok p)
    (hna : p.optimizer ≠ HValue.strV "adam")
    (hns : p.optimizer ≠ HValue.strV "sgd")
    (hnr : p.optimizer ≠ HValue.strV "rmsprop") :
    _hyperception input_shape num_classes hparams =
      Except.error (PyErr.valueError "Optimizer \x27%s\x27 not supported"
        p.optimizer) ∧
    ∀ (s : List Nat) (c : Nat) (h : List (String × HValue)) (m : String)
      (a : HValue),
      _hyperception s c h = Except.error (PyErr.valueError m a) →
        m = "Optimizer \x27%s\x27 not supported" ∧
        ∃ q, resolveParams (resolvedHp s c h) = Except.ok q ∧ q.optimizer = a ∧
          a ≠ HValue.strV "adam" ∧ a ≠ HValue.strV "sgd" ∧
          a ≠ HValue.strV "rmsprop" := by
  constructor
  · simp only [_hyperception, hres, except_ok_bind]
    rw [optimizerOf_unsupported _ p.optimizer hna hns hnr, except_error_bind]
  · intro s c h m a hb
    obtain ⟨q, hq, hopt⟩ := build_err_elim s c h m a hb
    obtain ⟨hm, hav, h1, h2, h3⟩ := optimizerOf_valueError _ _ _ _ hopt
    subst hav
    exact ⟨hm, q, hq, rfl, h1, h2, h3⟩

/-- Witness for claim C1: the override `optimizer = "xyz"` resolves
successfully and the builder fails with the unsupported-optimizer error
naming "xyz". -/
theorem optimizer_unsupported_error_witness :
    resolveParams (resolvedHp [8, 8, 3] 2 [("optimizer", HValue.strV "xyz")]) =
      Except.ok exampleBadOptParams ∧
    _hyperception [8, 8, 3] 2 [("optimizer", HValue.strV "xyz")] =
      Except.error (PyErr.valueError "Optimizer \x27%s\x27 not supported"
        (HValue.strV "xyz")) :=
  ⟨by rfl,
   (optimizer_unsupported_error [8, 8, 3] 2 [("optimizer", HValue.strV "xyz")]
      exampleBadOptParams (by rfl) (by decide) (by decide) (by decide)).1⟩

/-- On the "adam" branch the selector reads `learning_rate` and builds
`Adam(lr)`. -/
theorem optimizerOf_adam (hp : List (String × HValue)) :
    optimizerOf hp (HValue.strV "adam") =
      getItem hp "learning_rate" >>= fun lr => pure (Optimizer.adam lr) := rfl

/-- On the "sgd" branch the selector reads `learning_rate`, `momentum`
and `learning_rate_decay` and builds `SGD(lr, momentum, decay)`. -/
theorem optimizerOf_sgd (hp : List (String × HValue)) :
    optimizerOf hp (HValue.strV "sgd") =
      getItem hp "learning_rate" >>= fun lr =>
        getItem hp "momentum" >>= fun momentum =>
          getItem hp "learning_rate_decay" >>= fun decay =>
            pure (Optimizer.sgd lr momentum decay) := rfl

/-- On the "rmsprop" branch the selector reads `learning_rate` and
`learning_rate_decay` and builds `RMSprop(lr, decay)`. -/
theorem optimizerOf_rmsprop (hp : List (String × HValue)) :
    optimizerOf hp (HValue.strV "rmsprop") =
      getItem hp "learning_rate" >>= fun lr =>
        getItem hp "learning_rate_decay" >>= fun decay =>
          pure (Optimizer.rmsprop lr decay) := rfl

/-- Claim C3: the graph built from any resolved mapping contains exactly
one spatial-reduction node, chosen by `dense_merge_type`: a full flatten
for "flatten", global average pooling for "avg", and global max pooling
for every other value. -/
theorem dense_merge_selection (input_shape : List Nat) (num_classes : Nat)
    (hparams : List (String × HValue)) (cm : CompiledModel) (dmt : HValue)
    (hb : _hyperception input_shape num_classes hparams = Except.ok cm)
    (hd : getItem (resolvedHp input_shape num_classes hparams)
      "dense_merge_type" = Except.ok dmt) :
    ∃ r, cm.net.graph.countP isReduction = 1 ∧ r ∈ cm.net.graph ∧
      isReduction r = true ∧
      (dmt = HValue.strV "flatten" → r = LayerNode.flatten) ∧
      (dmt = HValue.strV "avg" → r = LayerNode.globalAvgPool) ∧
      (dmt ≠ HValue.strV "flatten" → dmt ≠ HValue.strV "avg" →
        r = LayerNode.globalMaxPool) := by
  obtain ⟨p, opt, hres, hopt, hcm⟩ := build_ok_elim _ _ _ _ hb
  obtain ⟨f1, f2, f3, f4, f5, f6, f7, f8, f9, f10, f11⟩ :=
    resolveParams_fields _ _ hres
  rw [f8] at hd
  have hdm := Except.ok.inj hd
  subst hdm; subst hcm
  refine ⟨mergeLayerOf p.dense_merge_type, assemble_countP_reduction _ _ _,
    ?_, isReduction_mergeLayerOf _, ?_, ?_, ?_⟩
  · simp [assemble]
  · intro hflat; rw [hflat]; decide
  · intro havg; rw [havg]; decide
  · intro h1 h2; unfold mergeLayerOf; rw [if_neg h1, if_neg h2]

/-- Witness for claim C3: overriding `dense_merge_type = "flatten"`
produces a graph whose unique reduction node is a flatten layer. -/
theorem dense_merge_selection_witness :
    _hyperception [8, 8, 3] 2 [("dense_merge_type", HValue.strV "flatten")] =
      Except.ok exampleFlattenModel ∧
    ∃ r, exampleFlattenModel.net.graph.countP isReduction = 1 ∧
      r ∈ exampleFlattenModel.net.graph ∧ isReduction r = true ∧
      (HValue.strV "flatten" = HValue.strV "flatten" → r = LayerNode.flatten) ∧
      (HValue.strV "flatten" = HValue.strV "avg" → r = LayerNode.globalAvgPool) ∧
      (HValue.strV "flatten" ≠ HValue.strV "flatten" →
        HValue.strV "flatten" ≠ HValue.strV "avg" →
          r = LayerNode.globalMaxPool) :=
  ⟨by rfl,
   dense_merge_selection [8, 8, 3] 2 [("dense_merge_type", HValue.strV "flatten")]
     exampleFlattenModel (HValue.strV "flatten") (by rfl) (by rfl)⟩

/-- Claim C4: the assembled graph is the initial convolution, followed by
exactly `num_residual_blocks` non-downsampling residual blocks at
`sep_num_filters` filters, followed by exactly one downsampling residual
block at double that filter count. -/
theorem residual_block_structure (input_shape : List Nat) (num_classes : Nat)
    (hparams : List (String × HValue)) (cm : CompiledModel) (n d : Nat)
    (act : HValue)
    (hb : _hyperception input_shape num_classes hparams = Except.ok cm)
    (hn : getNat (resolvedHp input_shape num_classes hparams)
      "num_residual_blocks" = Except.ok n)
    (hd : getNat (resolvedHp input_shape num_classes hparams)
      "sep_num_filters" = Except.ok d)
    (ha : getItem (resolvedHp input_shape num_classes hparams)
      "activation" = Except.ok act) :
    (∃ cf ks st tail,
      cm.net.graph =
        LayerNode.conv cf ks act st ::
          (List.replicate n (LayerNode.residual d act false) ++
            (LayerNode.residual (d * 2) act true :: tail))) ∧
    cm.net.graph.countP isMidResidual = n ∧
    cm.net.graph.countP isDownResidual = 1 := by
  obtain ⟨p, opt, hres, hopt, hcm⟩ := build_ok_elim _ _ _ _ hb
  obtain ⟨f1, f2, f3, f4, f5, f6, f7, f8, f9, f10, f11⟩ :=
    resolveParams_fields _ _ hres
  rw [f7] at hn; rw [f6] at hd; rw [f3] at ha
  have hn' := Except.ok.inj hn
  have hd' := Except.ok.inj hd
  have ha' := Except.ok.inj ha
  subst hn'; subst hd'; subst ha'; subst hcm
  exact ⟨⟨p.conv2d_num_filters, p.kernel_size, p.initial_strides,
    mergeLayerOf p.dense_merge_type ::
      (List.replicate p.num_dense_layers
        (LayerNode.denseBlock num_classes p.activation p.dense_use_bn
          p.dropout_rate) ++ [LayerNode.denseLayer num_classes "softmax"]),
    rfl⟩, assemble_countP_midres _ _ _, assemble_countP_downres _ _ _⟩

/-- Witness for claim C4: overriding `num_residual_blocks = 0` yields a
graph with zero non-downsampling residual blocks and one downsampling
block at doubled filters directly after the initial convolution. -/
theorem residual_block_structure_witness :
    _hyperception [8, 8, 3] 2 [("num_residual_blocks", HValue.natV 0)] =
      Except.ok exampleNoResModel ∧
    ((∃ cf ks st tail,
      exampleNoResModel.net.graph =
        LayerNode.conv cf ks (HValue.strV "relu") st ::
          (List.replicate 0 (LayerNode.residual 64 (HValue.strV "relu") false) ++
            (LayerNode.residual (64 * 2) (HValue.strV "relu") true :: tail))) ∧
    exampleNoResModel.net.graph.countP isMidResidual = 0 ∧
    exampleNoResModel.net.graph.countP isDownResidual = 1) :=
  ⟨by rfl,
   residual_block_structure [8, 8, 3] 2 [("num_residual_blocks", HValue.natV 0)]
     exampleNoResModel 0 64 (HValue.strV "relu") (by rfl) (by rfl) (by rfl)
     (by rfl)⟩

/-- Claim C5: for every successful build, the constructed optimizer is
an `Adam` configured with exactly the mapping's learning rate (and no
momentum or decay field) when the optimizer string is "adam", an `SGD`
with the mapping's learning rate, momentum and decay when it is "sgd",
and an `RMSprop` with the mapping's learning rate and decay when it is
"rmsprop". -/
theorem optimizer_construction (input_shape : List Nat) (num_classes : Nat)
    (hparams : List (String × HValue)) (cm : CompiledModel)
    (hb : _hyperception input_shape num_classes hparams = Except.ok cm) :
    (getItem (resolvedHp input_shape num_classes hparams) "optimizer" =
        Except.ok (HValue.strV "adam") →
      ∃ lr, getItem (resolvedHp input_shape num_classes hparams)
          "learning_rate" = Except.ok lr ∧
        cm.optimizer = Optimizer.adam lr) ∧
    (getItem (resolvedHp input_shape num_classes hparams) "optimizer" =
        Except.ok (HValue.strV "sgd") →
      ∃ lr mom dec, getItem (resolvedHp input_shape num_classes hparams)
          "learning_rate" = Except.ok lr ∧
        getItem (resolvedHp input_shape num_classes hparams) "momentum" =
          Except.ok mom ∧
        getItem (resolvedHp input_shape num_classes hparams)
          "learning_rate_decay" = Except.ok dec ∧
        cm.optimizer = Optimizer.sgd lr mom dec) ∧
    (getItem (resolvedHp input_shape num_classes hparams) "optimizer" =
        Except.ok (HValue.strV "rmsprop") →
      ∃ lr dec, getItem (resolvedHp input_shape num_classes hparams)
          "learning_rate" = Except.ok lr ∧
        getItem (resolvedHp input_shape num_classes hparams)
          "learning_rate_decay" = Except.ok dec ∧
        cm.optimizer = Optimizer.rmsprop lr dec) := by
  obtain ⟨p, opt, hres, hopt, hcm⟩ := build_ok_elim _ _ _ _ hb
  obtain ⟨f1, f2, f3, f4, f5, f6, f7, f8, f9, f10, f11⟩ :=
    resolveParams_fields _ _ hres
  subst hcm
  refine ⟨?_, ?_, ?_⟩
  · intro hA
    rw [f4] at hA
    rw [Except.ok.inj hA, optimizerOf_adam] at hopt
    obtain ⟨lr, hlr, hpure⟩ := (except_bind_ok _ _ _).mp hopt
    rw [except_pure_ok] at hpure
    exact ⟨lr, hlr, hpure.symm⟩
  · intro hS
    rw [f4] at hS
    rw [Except.ok.inj hS, optimizerOf_sgd] at hopt
    obtain ⟨lr, hlr, hopt⟩ := (except_bind_ok _ _ _).mp hopt
    obtain ⟨mom, hmom, hopt⟩ := (except_bind_ok _ _ _).mp hopt
    obtain ⟨dec, hdec, hpure⟩ := (except_bind_ok _ _ _).mp hopt
    rw [except_pure_ok] at hpure
    exact ⟨lr, mom, dec, hlr, hmom, hdec, hpure.symm⟩
  · intro hR
    rw [f4] at hR
    rw [Except.ok.inj hR, optimizerOf_rmsprop] at hopt
    obtain ⟨lr, hlr, hopt⟩ := (except_bind_ok _ _ _).mp hopt
    obtain ⟨dec, hdec, hpure⟩ := (except_bind_ok _ _ _).mp hopt
    rw [except_pure_ok] at hpure
    exact ⟨lr, dec, hlr, hdec, hpure.symm⟩

/-- Witness for claim C5: with the default optimizer "adam", the build
produces an `Adam` carrying exactly the mapping's learning rate. -/
theorem optimizer_construction_witness :
    _hyperception [4, 4, 1] 3 [] = Except.ok (exampleDefaultModel [4, 4, 1] 3) ∧
    ∃ lr, getItem (resolvedHp [4, 4, 1] 3 []) "learning_rate" = Except.ok lr ∧
      (exampleDefaultModel [4, 4, 1] 3).optimizer = Optimizer.adam lr :=
  ⟨by rfl,
   (optimizer_construction [4, 4, 1] 3 [] (exampleDefaultModel [4, 4, 1] 3)
      (by rfl)).1 (by rfl)⟩

/-- Claim C6: for every valid shape and positive class count, building
with no overrides succeeds; the model records the given input shape, its
final layer is a softmax dense layer with `num_classes` units, and it is
compiled with categorical cross-entropy loss and an accuracy metric. -/
theorem default_build_succeeds (input_shape : List Nat) (num_classes : Nat)
    (hc : 0 < num_classes) (hs : ∀ dim ∈ input_shape, 0 < dim) :
    ∃ cm, _hyperception input_shape num_classes [] = Except.ok cm ∧
      cm.net.inputShape = input_shape ∧
      cm.net.graph.getLast? = some (LayerNode.denseLayer num_classes "softmax") ∧
      cm.loss = "categorical_crossentropy" ∧
      cm.metrics = ["accuracy"] :=
  ⟨exampleDefaultModel input_shape num_classes, rfl, rfl, rfl, rfl, rfl⟩

/-- Witness for claim C6: shape `[4, 4, 1]` with three classes. -/
theorem default_build_succeeds_witness :
    (0 < 3 ∧ ∀ dim ∈ [4, 4, 1], 0 < dim) ∧
    ∃ cm, _hyperception [4, 4, 1] 3 [] = Except.ok cm ∧
      cm.net.inputShape = [4, 4, 1] ∧
      cm.net.graph.getLast? = some (LayerNode.denseLayer 3 "softmax") ∧
      cm.loss = "categorical_crossentropy" ∧
      cm.metrics = ["accuracy"] :=
  ⟨⟨by decide, by decide⟩, default_build_succeeds [4, 4, 1] 3 (by decide) (by decide)⟩

/-- Claim C7: between the reduction node and the final softmax layer the
graph carries exactly `num_dense_layers` dense blocks (each carrying the
batch-normalization flag and dropout rate); with `num_dense_layers = 0`
the reduction output feeds the final softmax dense layer directly. -/
theorem dense_layer_structure (input_shape : List Nat) (num_classes : Nat)
    (hparams : List (String × HValue)) (cm : CompiledModel) (numDense : Nat)
    (hb : _hyperception input_shape num_classes hparams = Except.ok cm)
    (hnd : getNat (resolvedHp input_shape num_classes hparams)
      "num_dense_layers" = Except.ok numDense) :
    (∃ pre act bn dr mrg, isReduction mrg = true ∧
      cm.net.graph =
        pre ++ (mrg :: (List.replicate numDense
            (LayerNode.denseBlock num_classes act bn dr) ++
          [LayerNode.denseLayer num_classes "softmax"]))) ∧
    cm.net.graph.countP isDenseBlock = numDense := by
  obtain ⟨p, opt, hres, hopt, hcm⟩ := build_ok_elim _ _ _ _ hb
  obtain ⟨f1, f2, f3, f4, f5, f6, f7, f8, f9, f10, f11⟩ :=
    resolveParams_fields _ _ hres
  rw [f9] at hnd
  have hnd' := Except.ok.inj hnd
  subst hnd'; subst hcm
  constructor
  · refine ⟨LayerNode.conv p.conv2d_num_filters p.kernel_size p.activation
        p.initial_strides ::
      (List.replicate p.num_residual_blocks
        (LayerNode.residual p.sep_num_filters p.activation false) ++
        [LayerNode.residual (p.sep_num_filters * 2) p.activation true]),
      p.activation, p.dense_use_bn, p.dropout_rate,
      mergeLayerOf p.dense_merge_type, isReduction_mergeLayerOf _, ?_⟩
    simp [assemble, List.cons_append, List.append_assoc]
  · exact assemble_countP_denseBlock _ _ _

/-- Witness for claim C7: overriding `num_dense_layers = 0` puts the
final softmax layer directly after the reduction node. -/
theorem dense_layer_structure_witness :
    _hyperception [8, 8, 3] 2 [("num_dense_layers", HValue.natV 0)] =
      Except.ok exampleNoDenseModel ∧
    ((∃ pre act bn dr mrg, isReduction mrg = true ∧
      exampleNoDenseModel.net.graph =
        pre ++ (mrg :: (List.replicate 0 (LayerNode.denseBlock 2 act bn dr) ++
          [LayerNode.denseLayer 2 "softmax"]))) ∧
    exampleNoDenseModel.net.graph.countP isDenseBlock = 0) :=
  ⟨by rfl,
   dense_layer_structure [8, 8, 3] 2 [("num_dense_layers", HValue.natV 0)]
     exampleNoDenseModel 0 (by rfl) (by rfl)⟩
